import Mathlib

/-!
PMOD_ENC quadrature rotary-encoder driver: a formal model.

Shallow embedding of the PMOD_ENC driver interface declared in
`src/LCD_Menu_Design/PMOD_ENC.h`.  Packed pin samples are modelled as natural
numbers read as bit patterns (bit 0 = channel A, bit 1 = channel B,
bit 2 = button, bit 3 = switch, matching the mask constants of the header).
The repository ships only the header; the function bodies of
`PMOD_ENC_Get_Rotation`, `PMOD_ENC_Button_Read` and `PMOD_ENC_Switch_Read`
are modelled from the specification where the doc comments say so.
-/

/-- Mask for encoder channel A (pin PD0), `PMOD_ENC.h` line 28. -/
def PMOD_ENC_PIN_A_MASK : Nat := 0x01

/-- Mask for encoder channel B (pin PD1), `PMOD_ENC.h` line 29. -/
def PMOD_ENC_PIN_B_MASK : Nat := 0x02

/-- Mask for the push button (pin PD2), `PMOD_ENC.h` line 30. -/
def PMOD_ENC_BUTTON_MASK : Nat := 0x04

/-- Mask for the slide switch (pin PD3), `PMOD_ENC.h` line 31. -/
def PMOD_ENC_SWITCH_MASK : Nat := 0x08

/-- Mask covering all four PMOD ENC pins, `PMOD_ENC.h` line 32. -/
def PMOD_ENC_ALL_PINS_MASK : Nat := 0x0F

/-- Bit test of a packed pin sample against a mask, the C idiom
`(s & m) != 0`. -/
def maskTest (s m : Nat) : Bool := (s &&& m) != 0

/-- The rotation delta reported by the decoder: the spec's RotationDelta,
one of Clockwise (+1), CounterClockwise (-1), NoChange (0). -/
inductive RotationDelta where
  | Clockwise
  | CounterClockwise
  | NoChange
deriving DecidableEq, Repr

/-- The integer rendering of a rotation delta, as returned by
`PMOD_ENC_Get_Rotation` per its doc comment (`PMOD_ENC.h` lines 110-111). -/
def RotationDelta.toInt : RotationDelta → Int
  | .Clockwise => 1
  | .CounterClockwise => -1
  | .NoChange => 0

/-- Modelled from the spec: the QuadratureState, "the 2-bit subfield (A,B)
extracted from a PinSample" (§3); the extraction is the only part of
`PMOD_ENC_Get_Rotation` touching the raw sample and its body is not in the
repository.  Bit 0 (`PMOD_ENC_PIN_A_MASK`) is channel A, bit 1
(`PMOD_ENC_PIN_B_MASK`) is channel B; the numeric value is B·2 + A. -/
def quadOf (s : Nat) : Fin 4 :=
  match maskTest s PMOD_ENC_PIN_B_MASK, maskTest s PMOD_ENC_PIN_A_MASK with
  | false, false => 0
  | false, true  => 1
  | true,  false => 2
  | true,  true  => 3

/-- Modelled from the spec: the 16-entry quadrature transition table of §4.2;
the body of `PMOD_ENC_Get_Rotation` (declared `PMOD_ENC.h` line 113) is not
in the repository.  Clockwise cycle 00 → 01 → 11 → 10 → 00 (values
0 → 1 → 3 → 2 → 0); the mirrored pairs are counter-clockwise; self
transitions are NoChange; the four diagonal jumps take the fail-safe
NoChange policy. -/
def decode (current previous : Fin 4) : RotationDelta :=
  match current.val, previous.val with
  | 0, 0 => .NoChange
  | 0, 1 => .CounterClockwise
  | 0, 2 => .Clockwise
  | 0, 3 => .NoChange
  | 1, 0 => .Clockwise
  | 1, 1 => .NoChange
  | 1, 2 => .NoChange
  | 1, 3 => .CounterClockwise
  | 2, 0 => .CounterClockwise
  | 2, 1 => .NoChange
  | 2, 2 => .NoChange
  | 2, 3 => .Clockwise
  | 3, 0 => .NoChange
  | 3, 1 => .Clockwise
  | 3, 2 => .CounterClockwise
  | _, _ => .NoChange

/-- Modelled from the spec: `PMOD_ENC_Get_Rotation` (declared
`PMOD_ENC.h` line 113, body not in the repository).  "Returns 1 if the
rotation is clockwise, -1 if counter-clockwise, and 0 if there is no change";
per §2 it "isolates the 2-bit (A,B) subfield from each" sample and maps the
transition through the decode table. -/
def PMOD_ENC_Get_Rotation (state last_state : Nat) : Int :=
  (decode (quadOf state) (quadOf last_state)).toInt

/-- Modelled from the spec: `PMOD_ENC_Button_Read` (declared
`PMOD_ENC.h` line 125, body not in the repository), a "direct bit test on
the sample's button field" (§4.2), rendered as the Bool the spec's
`button_pressed` returns. -/
def PMOD_ENC_Button_Read (state : Nat) : Bool :=
  maskTest state PMOD_ENC_BUTTON_MASK

/-- Modelled from the spec: `PMOD_ENC_Switch_Read` (declared
`PMOD_ENC.h` line 137, body not in the repository), a "direct bit test on
the sample's switch field" (§4.2), rendered as the Bool the spec's
`switch_on` returns. -/
def PMOD_ENC_Switch_Read (state : Nat) : Bool :=
  maskTest state PMOD_ENC_SWITCH_MASK

/-- Modelled from the spec: the decoder together with the degraded-input
indication of §7 and scenario 5 of §8, which no function in the repository
implements.  The Bool is the degraded-input flag: it is raised exactly on
the four ambiguous diagonal transitions, where the rotation result is the
fail-safe NoChange. -/
def decodeFlagged (current previous : Fin 4) : RotationDelta × Bool :=
  match current.val, previous.val with
  | 0, 0 => (.NoChange, false)
  | 0, 1 => (.CounterClockwise, false)
  | 0, 2 => (.Clockwise, false)
  | 0, 3 => (.NoChange, true)
  | 1, 0 => (.Clockwise, false)
  | 1, 1 => (.NoChange, false)
  | 1, 2 => (.NoChange, true)
  | 1, 3 => (.CounterClockwise, false)
  | 2, 0 => (.CounterClockwise, false)
  | 2, 1 => (.NoChange, true)
  | 2, 2 => (.NoChange, false)
  | 2, 3 => (.Clockwise, false)
  | 3, 0 => (.NoChange, true)
  | 3, 1 => (.Clockwise, false)
  | 3, 2 => (.CounterClockwise, false)
  | _, _ => (.NoChange, false)

/-- The clockwise-cycle edges of §4.2, keyed (current, previous):
previous → current along 00 → 01 → 11 → 10 → 00. -/
def isCWEdge (current previous : Fin 4) : Bool :=
  (previous == 0 && current == 1) || (previous == 1 && current == 3) ||
  (previous == 3 && current == 2) || (previous == 2 && current == 0)

/-- The counter-clockwise-cycle edges of §4.2: the mirrored adjacent pairs. -/
def isCCWEdge (current previous : Fin 4) : Bool :=
  (previous == 1 && current == 0) || (previous == 3 && current == 1) ||
  (previous == 2 && current == 3) || (previous == 0 && current == 2)

/-- The transition classification exactly as the spec words it (§4.2):
self transitions are NoChange, clockwise-cycle edges are Clockwise, the
mirrored edges are CounterClockwise, and the remaining (diagonal) pairs take
the fail-safe NoChange fallback.  Kept separate from `decode` to compare the
spec's classification with the 16-entry table. -/
def decodeSpec (current previous : Fin 4) : RotationDelta :=
  if current == previous then .NoChange
  else if isCWEdge current previous then .Clockwise
  else if isCCWEdge current previous then .CounterClockwise
  else .NoChange

/-- `maskTest` against a single-bit mask is exactly the `testBit` of that
bit position. -/
theorem maskTest_two_pow (s i : Nat) : maskTest s (2 ^ i) = s.testBit i := by
  unfold maskTest
  rw [Nat.and_two_pow]
  cases h : s.testBit i <;> simp [(Nat.two_pow_pos i).ne']

/-- Flipping a bit other than position `i` leaves the single-bit mask test
at position `i` unchanged. -/
theorem maskTest_xor_two_pow (s : Nat) {i k : Nat} (h : i ≠ k) :
    maskTest (s ^^^ 2 ^ k) (2 ^ i) = maskTest s (2 ^ i) := by
  rw [maskTest_two_pow, maskTest_two_pow, Nat.testBit_xor,
    Nat.testBit_two_pow_of_ne (Ne.symm h)]
  simp

/-- The extracted quadrature state ignores every bit above channel B. -/
theorem quadOf_xor_high (s : Nat) {k : Nat} (h : 2 ≤ k) :
    quadOf (s ^^^ 2 ^ k) = quadOf s := by
  have hA : maskTest (s ^^^ 2 ^ k) PMOD_ENC_PIN_A_MASK
      = maskTest s PMOD_ENC_PIN_A_MASK := by
    have e : PMOD_ENC_PIN_A_MASK = 2 ^ 0 := rfl
    rw [e]; exact maskTest_xor_two_pow s (by omega)
  have hB : maskTest (s ^^^ 2 ^ k) PMOD_ENC_PIN_B_MASK
      = maskTest s PMOD_ENC_PIN_B_MASK := by
    have e : PMOD_ENC_PIN_B_MASK = 2 ^ 1 := rfl
    rw [e]; exact maskTest_xor_two_pow s (by omega)
  unfold quadOf
  rw [hA, hB]

/-- C1: for each of the 16 (current, previous) QuadratureState pairs the
decode table returns exactly one of Clockwise (+1), CounterClockwise (-1)
or NoChange (0), and agrees with the spec's classification: self
transitions map to NoChange, the four clockwise-cycle edges to Clockwise,
the four counter-clockwise edges to CounterClockwise, and the four diagonal
jumps to the fail-safe NoChange fallback. -/
theorem decode_matches_table : ∀ current previous : Fin 4,
    decode current previous = decodeSpec current previous ∧
    ((decode current previous).toInt = 1 ∨ (decode current previous).toInt = -1 ∨
      (decode current previous).toInt = 0) := by decide

/-- C2: the clockwise cycle 00 → 01 → 11 → 10 → 00 decodes as four
consecutive Clockwise (+1) results, and the same cycle traversed in reverse
decodes as four consecutive CounterClockwise (-1) results; in particular
decode(current = 0b01, previous = 0b00) = +1 and
decode(current = 0b01, previous = 0b11) = -1. -/
theorem cw_ccw_cycle_decodes :
    PMOD_ENC_Get_Rotation 0b01 0b00 = 1 ∧ PMOD_ENC_Get_Rotation 0b11 0b01 = 1 ∧
    PMOD_ENC_Get_Rotation 0b10 0b11 = 1 ∧ PMOD_ENC_Get_Rotation 0b00 0b10 = 1 ∧
    PMOD_ENC_Get_Rotation 0b10 0b00 = -1 ∧ PMOD_ENC_Get_Rotation 0b11 0b10 = -1 ∧
    PMOD_ENC_Get_Rotation 0b01 0b11 = -1 ∧ PMOD_ENC_Get_Rotation 0b00 0b01 = -1 := by
  decide

/-- C3: every diagonal transition, where current and previous differ in both
bits, decodes to NoChange and never to Clockwise or CounterClockwise. -/
theorem diagonal_decodes_noChange : ∀ current previous : Fin 4,
    current.val ^^^ previous.val = 3 →
    decode current previous = .NoChange ∧
    decode current previous ≠ .Clockwise ∧
    decode current previous ≠ .CounterClockwise := by decide

/-- Witness for C3 at the concrete diagonal pair current = 00,
previous = 11. -/
theorem diagonal_decodes_noChange_witness :
    (0 : Fin 4).val ^^^ (3 : Fin 4).val = 3 ∧
    (decode 0 3 = .NoChange ∧ decode 0 3 ≠ .Clockwise ∧
      decode 0 3 ≠ .CounterClockwise) :=
  ⟨by decide, diagonal_decodes_noChange 0 3 (by decide)⟩

/-- C4: decoding a repeated sample is NoChange for each of the four
quadrature states. -/
theorem decode_self_noChange : ∀ s : Fin 4, decode s s = .NoChange := by decide

/-- C5: the rotation result depends only on the 2-bit (A,B) subfield:
flipping the button bit (2), the switch bit (3) or any higher bit of either
the current or the previous sample leaves `PMOD_ENC_Get_Rotation`
unchanged. -/
theorem rotation_ignores_high_bits (state last_state k : Nat) (h : 2 ≤ k) :
    PMOD_ENC_Get_Rotation (state ^^^ 2 ^ k) last_state
      = PMOD_ENC_Get_Rotation state last_state ∧
    PMOD_ENC_Get_Rotation state (last_state ^^^ 2 ^ k)
      = PMOD_ENC_Get_Rotation state last_state := by
  unfold PMOD_ENC_Get_Rotation
  rw [quadOf_xor_high state h, quadOf_xor_high last_state h]
  exact ⟨rfl, rfl⟩

/-- Witness for C5: flipping the button bit (k = 2) of either sample of the
pair (current = 1, previous = 0) does not change the rotation. -/
theorem rotation_ignores_high_bits_witness :
    2 ≤ 2 ∧
    (PMOD_ENC_Get_Rotation (1 ^^^ 2 ^ 2) 0 = PMOD_ENC_Get_Rotation 1 0 ∧
      PMOD_ENC_Get_Rotation 1 (0 ^^^ 2 ^ 2) = PMOD_ENC_Get_Rotation 1 0) :=
  ⟨by decide, rotation_ignores_high_bits 1 0 2 (by decide)⟩

/-- C6: the button read is exactly the test of bit 2 and the switch read is
exactly the test of bit 3, and each result is unchanged by any modification
of the sample preserving its own bit — in particular flipping any other
bit. -/
theorem button_switch_bit_tests (s t : Nat)
    (hb : s.testBit 2 = t.testBit 2) (hs : s.testBit 3 = t.testBit 3) :
    PMOD_ENC_Button_Read s = s.testBit 2 ∧
    PMOD_ENC_Switch_Read s = s.testBit 3 ∧
    PMOD_ENC_Button_Read s = PMOD_ENC_Button_Read t ∧
    PMOD_ENC_Switch_Read s = PMOD_ENC_Switch_Read t := by
  have eb : ∀ u : Nat, PMOD_ENC_Button_Read u = u.testBit 2 := fun u => by
    have e : PMOD_ENC_BUTTON_MASK = 2 ^ 2 := rfl
    unfold PMOD_ENC_Button_Read
    rw [e]; exact maskTest_two_pow u 2
  have es : ∀ u : Nat, PMOD_ENC_Switch_Read u = u.testBit 3 := fun u => by
    have e : PMOD_ENC_SWITCH_MASK = 2 ^ 3 := rfl
    unfold PMOD_ENC_Switch_Read
    rw [e]; exact maskTest_two_pow u 3
  refine ⟨eb s, es s, ?_, ?_⟩
  · rw [eb s, eb t, hb]
  · rw [es s, es t, hs]

/-- Witness for C6 at samples 5 and 7, which agree on bits 2 and 3 but
differ at bit 1. -/
theorem button_switch_bit_tests_witness :
    ((5 : Nat).testBit 2 = (7 : Nat).testBit 2 ∧
      (5 : Nat).testBit 3 = (7 : Nat).testBit 3) ∧
    (PMOD_ENC_Button_Read 5 = (5 : Nat).testBit 2 ∧
      PMOD_ENC_Switch_Read 5 = (5 : Nat).testBit 3 ∧
      PMOD_ENC_Button_Read 5 = PMOD_ENC_Button_Read 7 ∧
      PMOD_ENC_Switch_Read 5 = PMOD_ENC_Switch_Read 7) :=
  ⟨⟨by decide, by decide⟩, button_switch_bit_tests 5 7 (by decide) (by decide)⟩

/-- C7: the decoder is deterministic in its two arguments: equal (current,
previous) samples always yield equal rotation results.  In this embedding
`PMOD_ENC_Get_Rotation` is a plain function of its arguments, so freedom
from hidden state and side effects holds by construction. -/
theorem get_rotation_deterministic (s₁ l₁ s₂ l₂ : Nat)
    (hs : s₁ = s₂) (hl : l₁ = l₂) :
    PMOD_ENC_Get_Rotation s₁ l₁ = PMOD_ENC_Get_Rotation s₂ l₂ := by
  rw [hs, hl]

/-- Witness for C7 at the concrete pair (state = 1, last_state = 0). -/
theorem get_rotation_deterministic_witness :
    ((1 : Nat) = 1 ∧ (0 : Nat) = 0) ∧
    PMOD_ENC_Get_Rotation 1 0 = PMOD_ENC_Get_Rotation 1 0 :=
  ⟨⟨rfl, rfl⟩, get_rotation_deterministic 1 0 1 0 rfl rfl⟩

/-- C8: the decoder is total and never surfaces an error: for every pair of
samples, including ones with the button, switch or higher bits set, the
result is a defined value in {1, 0, -1}. -/
theorem get_rotation_total (state last_state : Nat) :
    PMOD_ENC_Get_Rotation state last_state = 1 ∨
    PMOD_ENC_Get_Rotation state last_state = 0 ∨
    PMOD_ENC_Get_Rotation state last_state = -1 := by
  unfold PMOD_ENC_Get_Rotation
  cases decode (quadOf state) (quadOf last_state) <;> simp [RotationDelta.toInt]

/-- C9: the degraded-input flag is raised exactly on the four diagonal
(ambiguous) transitions, where the rotation component is still the decode
table's fail-safe NoChange; on every non-diagonal transition the flag stays
down and the rotation component agrees with the plain decoder. -/
theorem decodeFlagged_raises_on_diagonal : ∀ current previous : Fin 4,
    decodeFlagged current previous =
      (decode current previous, decide (current.val ^^^ previous.val = 3)) := by
  decide

/-- C10: the four pin masks are distinct single-bit values, pairwise
disjoint under bitwise AND, and their bitwise OR is exactly the all-pins
mask 0x0F. -/
theorem pin_masks_partition :
    PMOD_ENC_PIN_A_MASK = 2 ^ 0 ∧ PMOD_ENC_PIN_B_MASK = 2 ^ 1 ∧
    PMOD_ENC_BUTTON_MASK = 2 ^ 2 ∧ PMOD_ENC_SWITCH_MASK = 2 ^ 3 ∧
    PMOD_ENC_PIN_A_MASK ≠ PMOD_ENC_PIN_B_MASK ∧
    PMOD_ENC_PIN_A_MASK ≠ PMOD_ENC_BUTTON_MASK ∧
    PMOD_ENC_PIN_A_MASK ≠ PMOD_ENC_SWITCH_MASK ∧
    PMOD_ENC_PIN_B_MASK ≠ PMOD_ENC_BUTTON_MASK ∧
    PMOD_ENC_PIN_B_MASK ≠ PMOD_ENC_SWITCH_MASK ∧
    PMOD_ENC_BUTTON_MASK ≠ PMOD_ENC_SWITCH_MASK ∧
    PMOD_ENC_PIN_A_MASK &&& PMOD_ENC_PIN_B_MASK = 0 ∧
    PMOD_ENC_PIN_A_MASK &&& PMOD_ENC_BUTTON_MASK = 0 ∧
    PMOD_ENC_PIN_A_MASK &&& PMOD_ENC_SWITCH_MASK = 0 ∧
    PMOD_ENC_PIN_B_MASK &&& PMOD_ENC_BUTTON_MASK = 0 ∧
    PMOD_ENC_PIN_B_MASK &&& PMOD_ENC_SWITCH_MASK = 0 ∧
    PMOD_ENC_BUTTON_MASK &&& PMOD_ENC_SWITCH_MASK = 0 ∧
    (PMOD_ENC_PIN_A_MASK ||| PMOD_ENC_PIN_B_MASK |||
      PMOD_ENC_BUTTON_MASK ||| PMOD_ENC_SWITCH_MASK) = PMOD_ENC_ALL_PINS_MASK ∧
    PMOD_ENC_ALL_PINS_MASK = 0x0F := by decide
